import Mathlib

/-!
Shallow embedding of the `@yyhhenry/rust-result` TypeScript library.

The repository ships two historical variants of the same API in one module
file:
* a newer one built on a `ResultObject` base class with `OkObject` / `ErrObject`
  subclasses and the free constructors `ok`, `err`, `fin`, `anyhow`, plus the
  adapter `execFn`;
* an older one built on a `ResultBase` class with `Ok` / `Err` subclasses and
  the adapter pipeline `toError` / `safelyWith` / `safely`.

JavaScript exceptions are modelled by the `Outcome` type: a computation either
returns (`ret`) or throws a JavaScript value (`thrown`).  Thrown values and
error payloads live in `JSVal`, a model of the dynamically typed JS values the
library inspects: an `Error` instance carries a `name` and a `message`
(`Panic extends Error` sets `name = "Panic"`); everything else is a non-error
value with a `String(·)` rendering.
-/

namespace RustResult

/-- Model of the JavaScript runtime values the library manipulates
dynamically.  `error name message` is an `Error` instance (this is the only
shape for which `instanceof Error` holds); numbers are modelled as integers,
which is enough for every behaviour the library's code inspects. -/
inductive JSVal where
  | error (name : String) (message : String)
  | str (s : String)
  | num (n : Int)
  | boolean (b : Bool)
  | undef
  | null
deriving DecidableEq

/-- The dynamic `e instanceof Error` test used by `unwrap`, `execFn` and
`toError`: true exactly for `Error` instances (`Panic` extends `Error`, so a
panic value also passes the test). -/
def JSVal.instanceofError : JSVal → Bool
  | .error _ _ => true
  | _ => false

/-- The `String(e)` rendering used when normalizing a non-`Error` thrown
value.  For an `Error` instance it is `Error.prototype.toString()`:
`name` and `message` joined by `": "`, degenerating when either is empty. -/
def JSVal.jsString : JSVal → String
  | .error n m => if m = "" then n else if n = "" then m else n ++ ": " ++ m
  | .str s => s
  | .num n => toString n
  | .boolean b => if b then "true" else "false"
  | .undef => "undefined"
  | .null => "null"

/-- The `message` property: present exactly on `Error` instances. -/
def JSVal.message : JSVal → Option String
  | .error _ m => some m
  | _ => none

/-- The value thrown by `panic(m)`: a fresh `Panic` error (a subclass of
`Error` whose `name` field is `"Panic"`) carrying message `m`. -/
def panicVal (m : String) : JSVal := JSVal.error "Panic" m

/-- Outcome of running a piece of JavaScript: it either returns a value or
throws a `JSVal`.  A zero-argument function handed to an adapter is modelled
by the outcome of its single invocation. -/
inductive Outcome (A : Type) where
  | ret (a : A)
  | thrown (e : JSVal)
deriving DecidableEq

/-- Sequencing under exception propagation: if the first step throws, the
whole expression throws with the same value. -/
def Outcome.bind {A B : Type} : Outcome A → (A → Outcome B) → Outcome B
  | .ret a, f => f a
  | .thrown e, _ => .thrown e

/-- A JavaScript `try { body } catch (e) { handler }` block. -/
def tryCatch {A : Type} (body : Outcome A) (handler : JSVal → Outcome A) :
    Outcome A :=
  match body with
  | .ret a => .ret a
  | .thrown e => handler e

/-- The runtime class hierarchy of the newer API: a `ResultObject` is either
an instance of the subclass `OkObject` (payload `v`), an instance of the
subclass `ErrObject` (payload `e`), or a bare instance of the base class
`ResultObject` itself, which the type `Result<T, E>` excludes but which the
class hierarchy makes representable (it is what the third branch of `match`
guards against). -/
inductive ResultObject (T E : Type) where
  | okObject (v : T)
  | errObject (e : E)
  | baseObject
deriving DecidableEq

/-- Constructor `ok(v)`: a new `OkObject(v)`. -/
def ok {T E : Type} (v : T) : ResultObject T E := .okObject v

/-- Constructor `err(e)`: a new `ErrObject(e)`. -/
def err {T E : Type} (e : E) : ResultObject T E := .errObject e

/-- Constructor `fin()`: `ok(undefined)`. -/
def fin {E : Type} : ResultObject JSVal E := ok JSVal.undef

/-- Constructor `anyhow(message)`: `err(new Error(message))` — a fresh
`Error` instance (default `name` field `"Error"`) carrying `message`. -/
def anyhow {T : Type} (message : String) : ResultObject T JSVal :=
  err (JSVal.error "Error" message)

namespace ResultObject

variable {T E U V F : Type}

/-- `isOk()`: `this instanceof OkObject`. -/
def isOk : ResultObject T E → Bool
  | .okObject _ => true
  | _ => false

/-- `isErr()`: `this instanceof ErrObject`. -/
def isErr : ResultObject T E → Bool
  | .errObject _ => true
  | _ => false

/-- The boolean tag field `ok` declared by the subclasses: `OkObject` sets it
to `true`, `ErrObject` to `false`; a bare base-class instance has no such
field, modelled as `none`. -/
def tagOk : ResultObject T E → Option Bool
  | .okObject _ => some true
  | .errObject _ => some false
  | .baseObject => none

/-- `expect(msg)`: if `this.isOk()` return `this.v`, else `panic(msg)`.
`isOk()` holds exactly on `OkObject` instances. -/
def expect (r : ResultObject T E) (msg : String) : Outcome T :=
  match r with
  | .okObject v => .ret v
  | _ => .thrown (panicVal msg)

/-- `expectErr(msg)`: if `this.isErr()` return `this.e`, else `panic(msg)`.
`isErr()` holds exactly on `ErrObject` instances. -/
def expectErr (r : ResultObject T E) (msg : String) : Outcome E :=
  match r with
  | .errObject e => .ret e
  | _ => .thrown (panicVal msg)

/-- `match(ok, err)` (named `matchFn` here because `match` is a Lean
keyword): if `this.isOk()` apply the first callback to `this.v`; else if
`this.isErr()` apply the second to `this.e`; else
`panic("unreachable: unknown variant of Result")`.  Callbacks are modelled
monadically (`Outcome`-valued) because a JavaScript callback may itself
throw. -/
def matchFn (r : ResultObject T E) (onOk : T → Outcome U)
    (onErr : E → Outcome U) : Outcome U :=
  match r with
  | .okObject v => onOk v
  | .errObject e => onErr e
  | .baseObject => .thrown (panicVal "unreachable: unknown variant of Result")

/-- `unwrapOr(def)`: `this.match((v) => v, () => def)`. -/
def unwrapOr (r : ResultObject T E) (d : T) : Outcome T :=
  r.matchFn (fun v => .ret v) (fun _ => .ret d)

/-- `unwrapOrElse(fn)`: `this.match((v) => v, (e) => fn(e))`. -/
def unwrapOrElse (r : ResultObject T E) (fn : E → Outcome T) : Outcome T :=
  r.matchFn (fun v => .ret v) (fun e => fn e)

/-- `map(fn)`: `this.match((v) => ok(fn(v)), (e) => err(e))`; the call
`ok(fn(v))` first evaluates `fn(v)`, whose exception (if any) propagates. -/
def map (r : ResultObject T E) (fn : T → Outcome U) :
    Outcome (ResultObject U E) :=
  r.matchFn (fun v => (fn v).bind (fun u => .ret (ok u)))
    (fun e => .ret (err e))

/-- `mapErr(fn)`: `this.match((v) => ok(v), (e) => err(fn(e)))`. -/
def mapErr (r : ResultObject T E) (fn : E → Outcome F) :
    Outcome (ResultObject T F) :=
  r.matchFn (fun v => .ret (ok v))
    (fun e => (fn e).bind (fun f => .ret (err f)))

/-- `andThen(fn)`: `this.match((v) => fn(v), (e) => err(e))`. -/
def andThen (r : ResultObject T E) (fn : T → Outcome (ResultObject U E)) :
    Outcome (ResultObject U E) :=
  r.matchFn (fun v => fn v) (fun e => .ret (err e))

/-- `orElse(fn)`: `this.match((v) => ok(v), (e) => fn(e))`. -/
def orElse (r : ResultObject T E) (fn : E → Outcome (ResultObject T F)) :
    Outcome (ResultObject T F) :=
  r.matchFn (fun v => .ret (ok v)) (fun e => fn e)

/-- `unwrap()`: `this.unwrapOrElse((e) => { if (e instanceof Error) throw e;
panic("called `unwrap()` on an `Err` value"); })`.  The dynamic
`instanceof Error` test forces the error payload type to be the JS value
model `JSVal` in this embedding. -/
def unwrap (r : ResultObject T JSVal) : Outcome T :=
  r.unwrapOrElse (fun e =>
    if e.instanceofError then .thrown e
    else .thrown (panicVal "called `unwrap()` on an `Err` value"))

/-- `unwrapErr()`: `this.expectErr("called `unwrapErr()` on an `Ok` value")`. -/
def unwrapErr (r : ResultObject T E) : Outcome E :=
  r.expectErr "called `unwrapErr()` on an `Ok` value"

/-- A `ResultObject` that actually inhabits the public type
`Result<T, E> = (Ok<T> | Err<E>) & ResultFunctions<T, E>`: one of the two
variant predicates holds. -/
def WellFormed (r : ResultObject T E) : Prop :=
  r.isOk = true ∨ r.isErr = true

/-- Agreement between the `ok` tag field and the variant predicates: the
field is present and equal to `isOk()`, and `isErr()` is its negation. -/
def tagAgrees (r : ResultObject T E) : Prop :=
  r.tagOk = some r.isOk ∧ r.isErr = !r.isOk

end ResultObject

/-- `execFn(fn)`:
`try { return ok(fn()); } catch (e) { return e instanceof Error ? err(e) :
anyhow(String(e)); }`.  The argument is modelled by the outcome of invoking
`fn()` once; the adapter's own result is an `Outcome` so that "never
re-raises" is a provable statement rather than a typing assumption. -/
def execFn {T : Type} (fn : Outcome T) : Outcome (ResultObject T JSVal) :=
  tryCatch (fn.bind (fun v => .ret (ok v)))
    (fun e =>
      if e.instanceofError then .ret (err e)
      else .ret (anyhow (JSVal.jsString e)))

/-- The older API's runtime values as produced by its exported constructors:
`ok(value)` builds an `Ok` instance, `err(error)` an `Err` instance (the
`ResultBase` class also exists there, but no exported function ever
constructs a bare `ResultBase`, and no claim concerns that corner, so the
model keeps the two constructed shapes). -/
inductive ResultB (T E : Type) where
  | okB (v : T)
  | errB (e : E)
deriving DecidableEq

/-- `toError(e)`: `e instanceof Error ? e : new Error(String(e))`. -/
def toError (e : JSVal) : JSVal :=
  if e.instanceofError then e else JSVal.error "Error" (e.jsString)

/-- `safelyWith(toErr, f)`:
`try { return ok(f()); } catch (e) { return err(toErr(e)); }`. -/
def safelyWith {T : Type} (toErr : JSVal → JSVal) (f : Outcome T) :
    Outcome (ResultB T JSVal) :=
  tryCatch (f.bind (fun v => .ret (.okB v))) (fun e => .ret (.errB (toErr e)))

/-- `safely(f)`: `safelyWith(toError, f)`. -/
def safely {T : Type} (f : Outcome T) : Outcome (ResultB T JSVal) :=
  safelyWith toError f

/-- Modelled from the spec's words for the equivalence claim about `execFn`
and `safely`: the two adapters "produce a Result of the same variant, with an
equal success value on normal return and an equal normalized error value when
`fn` raises" — the two results are the same variant and carry equal
payloads, across the two representations. -/
def sameVariantAndPayload {T E : Type} (r : ResultObject T E)
    (s : ResultB T E) : Prop :=
  (∃ v, r = .okObject v ∧ s = .okB v) ∨ (∃ e, r = .errObject e ∧ s = .errB e)

end RustResult

namespace RustResult

/-! Theorems about the embedded program. -/

/-- C1 (counterexample): the claim predicts that `unwrap()` on an `Err`
holding the non-conforming payload `"boom"` panics with message
`called unwrap() on an Err value`; the code instead panics with
`called `unwrap()` on an `Err` value` (backticks around `unwrap()` and
`Err`), a different string. -/
theorem unwrap_err_message_cex :
    ResultObject.unwrap (T := Unit) (err (JSVal.str "boom")) ≠
      Outcome.thrown (panicVal "called unwrap() on an Err value") ∧
    ResultObject.unwrap (T := Unit) (err (JSVal.str "boom")) =
      Outcome.thrown (panicVal "called `unwrap()` on an `Err` value") := by
  constructor
  · decide
  · rfl

/-- C1 (amended): `unwrap()` on `err(e)` re-raises `e` itself, unchanged,
when `e` is an `Error` instance; otherwise it raises the panic signal with
message `called `unwrap()` on an `Err` value` (with backticks, as in the
source). -/
theorem unwrap_err_behavior (T : Type) (e : JSVal) :
    ResultObject.unwrap (T := T) (err e) =
      Outcome.thrown (if e.instanceofError then e
        else panicVal "called `unwrap()` on an `Err` value") := by
  cases e <;> rfl

/-- C2: a value raised inside `execFn` is kept as-is in the resulting `Err`
when it is an `Error` instance (the error shape, i.e. it carries a
`message`), and is otherwise replaced by a fresh error whose message is its
`String(·)` rendering; `toError` implements exactly the same normalization
rule. -/
theorem execFn_toError_normalization (T : Type) (e : JSVal) :
    execFn (T := T) (Outcome.thrown e) =
      Outcome.ret (err (if e.instanceofError then e
        else JSVal.error "Error" (e.jsString))) ∧
    toError e =
      (if e.instanceofError then e else JSVal.error "Error" (e.jsString)) ∧
    (JSVal.error "Error" (e.jsString)).message = some (e.jsString) := by
  refine ⟨?_, rfl, rfl⟩
  cases e <;> rfl

/-- C3: `execFn` (newer API) and `safely` (older API) are equivalent: on the
same function outcome both return normally with a result of the same
variant, holding an equal success value when the function returns and an
equal normalized error value when it raises. -/
theorem execFn_safely_equiv (T : Type) (fn : Outcome T) :
    ∃ r s, execFn fn = Outcome.ret r ∧ safely fn = Outcome.ret s ∧
      sameVariantAndPayload r s := by
  cases fn with
  | ret v => exact ⟨ok v, .okB v, rfl, rfl, Or.inl ⟨v, rfl, rfl⟩⟩
  | thrown e =>
      refine ⟨err (toError e), .errB (toError e), ?_, rfl,
        Or.inr ⟨toError e, rfl, rfl⟩⟩
      cases e <;> rfl

/-- C4: `execFn` always returns normally (never re-raises): it yields
`Ok` holding the function's value exactly when the function returns, and an
`Err` (holding the kept or normalized raised value) exactly when the
function raises. -/
theorem execFn_total_capture (T : Type) (fn : Outcome T) :
    execFn fn = Outcome.ret (match fn with
      | .ret v => ok v
      | .thrown e =>
          if e.instanceofError then err e else anyhow (e.jsString)) := by
  cases fn with
  | ret v => rfl
  | thrown e => cases e <;> rfl

/-- C5: `andThen` composition is associative:
`r.andThen(f).andThen(g) = r.andThen((v) => f(v).andThen(g))` for every
`ResultObject` `r` (well-formed or not) and all `Result`-returning `f`, `g`;
the left-hand chaining is sequenced with `Outcome.bind` because the first
`andThen` call may throw. -/
theorem andThen_assoc (T U V E : Type) (r : ResultObject T E)
    (f : T → ResultObject U E) (g : U → ResultObject V E) :
    (r.andThen (fun v => Outcome.ret (f v))).bind
        (fun s => s.andThen (fun u => Outcome.ret (g u))) =
      r.andThen (fun v => (f v).andThen (fun u => Outcome.ret (g u))) := by
  cases r <;> rfl

/-- C6: `map` and `andThen` are no-ops on `Err`: `err(e).map(f)` and
`err(e).andThen(g)` both return an `Err` holding the same error value `e`,
for every `f` and `g`; and the `match` underlying both, instrumented with
per-side counters, shows the `Ok`-side callback — the only place `f` or
`g` is ever applied — runs zero times while the `Err` side runs once. -/
theorem map_andThen_noop_on_err (T U E : Type) (e : E) (f : T → Outcome U)
    (g : T → Outcome (ResultObject U E)) :
    (err (T := T) e).map f = Outcome.ret (err e) ∧
    (err (T := T) e).andThen g = Outcome.ret (err e) ∧
    (err (T := T) e).matchFn (fun _ => Outcome.ret ((1 : Nat), (0 : Nat)))
        (fun _ => Outcome.ret (0, 1)) = Outcome.ret (0, 1) :=
  ⟨rfl, rfl, rfl⟩

/-- C7 (counterexample): the claim predicts that `unwrapErr()` on
`ok(0)` panics with message `called unwrapErr() on an Ok value`; the code
instead panics with `called `unwrapErr()` on an `Ok` value` (backticks
around `unwrapErr()` and `Ok`), a different string. -/
theorem unwrapErr_ok_message_cex :
    ResultObject.unwrapErr (ok (0 : Nat) : ResultObject Nat Unit) ≠
      Outcome.thrown (panicVal "called unwrapErr() on an Ok value") ∧
    ResultObject.unwrapErr (ok (0 : Nat) : ResultObject Nat Unit) =
      Outcome.thrown (panicVal "called `unwrapErr()` on an `Ok` value") := by
  constructor
  · decide
  · rfl

/-- C7 (amended): `unwrapErr()` on `ok(v)` raises the panic signal with
message `called `unwrapErr()` on an `Ok` value` (with backticks, as in the
source); on `err(e)` it returns `e`. -/
theorem unwrapErr_behavior (T E : Type) (v : T) (e : E) :
    ResultObject.unwrapErr (ok v : ResultObject T E) =
      Outcome.thrown (panicVal "called `unwrapErr()` on an `Ok` value") ∧
    ResultObject.unwrapErr (err e : ResultObject T E) = Outcome.ret e :=
  ⟨rfl, rfl⟩

/-- C8: on a well-formed `Result`, `match(onOk, onErr)` invokes exactly one
of the two callbacks — never both, never neither — choosing `onOk` on `Ok`
and `onErr` on `Err`, and returns that callback's result.  Invocation is
counted by instantiating the (polymorphic) `matchFn` with callbacks that
pair the original results with per-side counters: the counters always sum
to one. -/
theorem match_exactly_one_callback {T E U : Type} (r : ResultObject T E)
    (h : r.WellFormed) (onOk : T → U) (onErr : E → U) :
    ∃ u cOk cErr,
      r.matchFn (fun v => Outcome.ret (onOk v, (1 : Nat), (0 : Nat)))
          (fun e => Outcome.ret (onErr e, 0, 1)) =
        Outcome.ret (u, cOk, cErr) ∧
      cOk + cErr = 1 ∧
      r.matchFn (fun v => Outcome.ret (onOk v))
          (fun e => Outcome.ret (onErr e)) = Outcome.ret u ∧
      ((cOk = 1 ∧ ∃ v, r = ok v ∧ u = onOk v) ∨
        (cErr = 1 ∧ ∃ e, r = err e ∧ u = onErr e)) := by
  cases r with
  | okObject v => exact ⟨onOk v, 1, 0, rfl, rfl, rfl, Or.inl ⟨rfl, v, rfl, rfl⟩⟩
  | errObject e =>
      exact ⟨onErr e, 0, 1, rfl, rfl, rfl, Or.inr ⟨rfl, e, rfl, rfl⟩⟩
  | baseObject =>
      rcases h with h | h <;> simp [ResultObject.isOk, ResultObject.isErr] at h

/-- C8 (witness): the exactly-one-callback property evaluated at the
concrete result `ok(5)` with concrete callbacks. -/
theorem match_exactly_one_callback_witness :
    ∃ u cOk cErr,
      (ok 5 : ResultObject Nat Nat).matchFn
          (fun v => Outcome.ret (v + 1, (1 : Nat), (0 : Nat)))
          (fun e => Outcome.ret (e, 0, 1)) = Outcome.ret (u, cOk, cErr) ∧
      cOk + cErr = 1 ∧
      (ok 5 : ResultObject Nat Nat).matchFn (fun v => Outcome.ret (v + 1))
          (fun e => Outcome.ret e) = Outcome.ret u ∧
      ((cOk = 1 ∧ ∃ v, (ok 5 : ResultObject Nat Nat) = ok v ∧ u = v + 1) ∨
        (cErr = 1 ∧ ∃ e, (ok 5 : ResultObject Nat Nat) = err e ∧ u = e)) :=
  match_exactly_one_callback (ok 5) (Or.inl rfl) (fun v => v + 1) (fun e => e)

/-- C9: the boolean tag field `ok` agrees with the predicates — it is
present and equal to `isOk()`, with `isErr()` its negation — on every
result built by a public constructor (`ok`, `err`, `fin`, `anyhow`,
`execFn`), and this agreement is preserved by every combinator that
produces a `Result` (`map`, `mapErr`, `andThen`, `orElse`; for the last two
under the typing guarantee that the callback returns public `Result`s). -/
theorem tag_agreement :
    (∀ (T E : Type) (v : T), (ok v : ResultObject T E).tagAgrees) ∧
    (∀ (T E : Type) (e : E), (err e : ResultObject T E).tagAgrees) ∧
    (∀ (E : Type), (fin : ResultObject JSVal E).tagAgrees) ∧
    (∀ (T : Type) (m : String), (anyhow m : ResultObject T JSVal).tagAgrees) ∧
    (∀ (T : Type) (fn : Outcome T) r,
      execFn fn = Outcome.ret r → r.tagAgrees) ∧
    (∀ (T E U : Type) (r : ResultObject T E) (fn : T → Outcome U) r2,
      r.map fn = Outcome.ret r2 → r2.tagAgrees) ∧
    (∀ (T E F : Type) (r : ResultObject T E) (fn : E → Outcome F) r2,
      r.mapErr fn = Outcome.ret r2 → r2.tagAgrees) ∧
    (∀ (T E U : Type) (r : ResultObject T E)
      (fn : T → Outcome (ResultObject U E)) r2,
      (∀ v s, fn v = Outcome.ret s → s.tagAgrees) →
      r.andThen fn = Outcome.ret r2 → r2.tagAgrees) ∧
    (∀ (T E F : Type) (r : ResultObject T E)
      (fn : E → Outcome (ResultObject T F)) r2,
      (∀ e s, fn e = Outcome.ret s → s.tagAgrees) →
      r.orElse fn = Outcome.ret r2 → r2.tagAgrees) := by
  refine ⟨fun T E v => ⟨rfl, rfl⟩, fun T E e => ⟨rfl, rfl⟩,
    fun E => ⟨rfl, rfl⟩, fun T m => ⟨rfl, rfl⟩, ?_, ?_, ?_, ?_, ?_⟩
  · intro T fn r h
    cases fn with
    | ret v => injection h with h; subst h; exact ⟨rfl, rfl⟩
    | thrown e =>
        cases e <;> (injection h with h; subst h) <;> exact ⟨rfl, rfl⟩
  · intro T E U r fn r2 h
    cases r with
    | okObject v =>
        simp only [ResultObject.map, ResultObject.matchFn] at h
        cases hf : fn v with
        | ret u =>
            rw [hf] at h
            simp only [Outcome.bind] at h
            injection h with h; subst h; exact ⟨rfl, rfl⟩
        | thrown ev => rw [hf] at h; simp only [Outcome.bind] at h; cases h
    | errObject e =>
        simp only [ResultObject.map, ResultObject.matchFn] at h
        injection h with h; subst h; exact ⟨rfl, rfl⟩
    | baseObject =>
        simp only [ResultObject.map, ResultObject.matchFn] at h; cases h
  · intro T E F r fn r2 h
    cases r with
    | okObject v =>
        simp only [ResultObject.mapErr, ResultObject.matchFn] at h
        injection h with h; subst h; exact ⟨rfl, rfl⟩
    | errObject e =>
        simp only [ResultObject.mapErr, ResultObject.matchFn] at h
        cases hf : fn e with
        | ret u =>
            rw [hf] at h
            simp only [Outcome.bind] at h
            injection h with h; subst h; exact ⟨rfl, rfl⟩
        | thrown ev => rw [hf] at h; simp only [Outcome.bind] at h; cases h
    | baseObject =>
        simp only [ResultObject.mapErr, ResultObject.matchFn] at h; cases h
  · intro T E U r fn r2 hfn h
    cases r with
    | okObject v =>
        simp only [ResultObject.andThen, ResultObject.matchFn] at h
        exact hfn v r2 h
    | errObject e =>
        simp only [ResultObject.andThen, ResultObject.matchFn] at h
        injection h with h; subst h; exact ⟨rfl, rfl⟩
    | baseObject =>
        simp only [ResultObject.andThen, ResultObject.matchFn] at h; cases h
  · intro T E F r fn r2 hfn h
    cases r with
    | okObject v =>
        simp only [ResultObject.orElse, ResultObject.matchFn] at h
        injection h with h; subst h; exact ⟨rfl, rfl⟩
    | errObject e =>
        simp only [ResultObject.orElse, ResultObject.matchFn] at h
        exact hfn e r2 h
    | baseObject =>
        simp only [ResultObject.orElse, ResultObject.matchFn] at h; cases h

/-- C9 (witness): the tag-agreement statement exercised at concrete inputs,
one per hypothesis-bearing component: `execFn` on a returning function,
`map`, `mapErr`, `andThen` and `orElse` on concrete results with concrete
callbacks. -/
theorem tag_agreement_witness :
    (ok 7 : ResultObject Nat JSVal).tagAgrees ∧
    (ok 8 : ResultObject Nat JSVal).tagAgrees ∧
    (err JSVal.null : ResultObject Nat JSVal).tagAgrees ∧
    (ok 9 : ResultObject Nat JSVal).tagAgrees ∧
    (ok 10 : ResultObject Nat JSVal).tagAgrees := by
  refine ⟨?_, ?_, ?_, ?_, ?_⟩
  · exact tag_agreement.2.2.2.2.1 Nat (Outcome.ret 7) (ok 7) rfl
  · exact tag_agreement.2.2.2.2.2.1 Nat JSVal Nat (ok 3)
      (fun v => Outcome.ret (v + 5)) (ok 8) rfl
  · exact tag_agreement.2.2.2.2.2.2.1 Nat JSVal JSVal
      (err (JSVal.str "x")) (fun _ => Outcome.ret JSVal.null)
      (err JSVal.null) rfl
  · exact tag_agreement.2.2.2.2.2.2.2.1 Nat JSVal Nat (ok 4)
      (fun v => Outcome.ret (ok (v + 5))) (ok 9)
      (fun v s hs => by injection hs with hs; subst hs; exact ⟨rfl, rfl⟩)
      rfl
  · exact tag_agreement.2.2.2.2.2.2.2.2 Nat JSVal JSVal
      (err (JSVal.num 1)) (fun _ => Outcome.ret (ok 10)) (ok 10)
      (fun e s hs => by injection hs with hs; subst hs; exact ⟨rfl, rfl⟩)
      rfl

/-- C10: every result built by `ok`, `err`, `fin`, `anyhow` or the adapter
`execFn` is well-formed (one of `isOk()` / `isErr()` holds), and on a
well-formed result `match` always returns the applied callback's outcome —
so the third branch, the panic with message
`unreachable: unknown variant of Result`, is never executed. -/
theorem match_unreachable_dead :
    (∀ (T E : Type) (v : T), (ok v : ResultObject T E).WellFormed) ∧
    (∀ (T E : Type) (e : E), (err e : ResultObject T E).WellFormed) ∧
    (∀ (E : Type), (fin : ResultObject JSVal E).WellFormed) ∧
    (∀ (T : Type) (m : String), (anyhow m : ResultObject T JSVal).WellFormed) ∧
    (∀ (T : Type) (fn : Outcome T) r,
      execFn fn = Outcome.ret r → r.WellFormed) ∧
    (∀ (T E U : Type) (r : ResultObject T E), r.WellFormed →
      ∀ (onOk : T → Outcome U) (onErr : E → Outcome U),
        (∃ v, r = ok v ∧ r.matchFn onOk onErr = onOk v) ∨
        (∃ e, r = err e ∧ r.matchFn onOk onErr = onErr e)) := by
  refine ⟨fun T E v => Or.inl rfl, fun T E e => Or.inr rfl,
    fun E => Or.inl rfl, fun T m => Or.inr rfl, ?_, ?_⟩
  · intro T fn r h
    cases fn with
    | ret v => injection h with h; subst h; exact Or.inl rfl
    | thrown e =>
        cases e <;> (injection h with h; subst h)
        · exact Or.inr rfl
        all_goals exact Or.inr rfl
  · intro T E U r hr onOk onErr
    cases r with
    | okObject v => exact Or.inl ⟨v, rfl, rfl⟩
    | errObject e => exact Or.inr ⟨e, rfl, rfl⟩
    | baseObject =>
        rcases hr with h | h <;>
          simp [ResultObject.isOk, ResultObject.isErr] at h

/-- C10 (witness): the dead-branch statement exercised at concrete inputs:
`execFn` on a returning function yields a well-formed result, and `match`
on the concrete well-formed result `ok(3)` returns the `Ok` callback's
outcome. -/
theorem match_unreachable_dead_witness :
    (ok 3 : ResultObject Nat Nat).WellFormed ∧
    ((∃ v, (ok 3 : ResultObject Nat Nat) = ok v ∧
        (ok 3 : ResultObject Nat Nat).matchFn (fun v => Outcome.ret (v + 1))
          (fun e => Outcome.ret e) = Outcome.ret (v + 1)) ∨
      (∃ e, (ok 3 : ResultObject Nat Nat) = err e ∧
        (ok 3 : ResultObject Nat Nat).matchFn (fun v => Outcome.ret (v + 1))
          (fun e => Outcome.ret e) = Outcome.ret e)) :=
  ⟨match_unreachable_dead.2.2.2.2.1 Nat (Outcome.ret 3) (ok 3) rfl,
    match_unreachable_dead.2.2.2.2.2 Nat Nat Nat (ok 3) (Or.inl rfl)
      (fun v => Outcome.ret (v + 1)) (fun e => Outcome.ret e)⟩

end RustResult
